import Mathlib

/-!
Verification of the pan-cancer target analysis pipeline
(`analyze_pan_cancer_targets.py`, `add_druggability.py`,
`add_opentargets_tractability.py`).

The Python pipeline is shallowly embedded: the gene-effect matrix becomes a
structure holding its row index (cell lines), column index (genes) and a total
entry function into `ℚ`; pandas boolean-mask filters become `List.filter`;
numpy `0/0 = NaN` is modelled by `Option ℚ` with `none` playing the role of
`NaN` (any comparison against `NaN` is false, so a `none` fraction never passes
the `>= min_fraction` test); network calls are modelled by passing the response
(or `none` for a timeout/exception) as data to the decision logic.
-/

/-- The CRISPR gene-effect matrix: rows are cell-line identifiers, columns are
gene identifiers, entries are dependency scores (more negative = more
essential).  Mirrors the `gene_effect` dataframe loaded from
`CRISPRGeneEffect.csv`. -/
structure EffectMatrix where
  cellLines : List String
  genes : List String
  effect : String → String → ℚ

/-- One row of the `Model.csv` cell-line metadata table. -/
structure ModelRow where
  modelID : String
  oncotreeLineage : String
  oncotreePrimaryDisease : String

/-- The non-cancer mask of `classify_cell_lines`: lineage is Fibroblast or
Normal, or the primary disease is the sentinel value. -/
def isNonCancerRow (r : ModelRow) : Bool :=
  (r.oncotreeLineage = "Fibroblast" || r.oncotreeLineage = "Normal")
    || r.oncotreePrimaryDisease = "Non-Cancerous"

/-- `classify_cell_lines`: split the metadata rows by the non-cancer mask,
take the `ModelID` sets, and intersect both with the set of cell lines present
in the effect matrix.  Returns `(cancer_ids, non_cancer_ids)` in the order of
the source. -/
def classifyCellLines (model : List ModelRow) (m : EffectMatrix) :
    Finset String × Finset String :=
  let nonCancerIds := ((model.filter fun r => isNonCancerRow r).map ModelRow.modelID).toFinset
  let cancerIds := ((model.filter fun r => !isNonCancerRow r).map ModelRow.modelID).toFinset
  let available := m.cellLines.toFinset
  (cancerIds ∩ available, nonCancerIds ∩ available)

/-- Per-gene essential fraction computed by `find_pan_essential_genes`:
the number of cancer cell lines with effect strictly below `threshold`,
divided by the cohort size.  With an empty cohort numpy produces `0/0 = NaN`;
`none` models that `NaN`. -/
def essentialFraction (m : EffectMatrix) (cancerIds : List String) (threshold : ℚ)
    (g : String) : Option ℚ :=
  if cancerIds.length = 0 then none
  else some (((cancerIds.countP fun c => decide (m.effect c g < threshold)) : ℚ) /
    (cancerIds.length : ℚ))

/-- The gene/fraction pairs retained by the `essential_fraction >= min_fraction`
mask, in matrix-column order.  A `none` (`NaN`) fraction fails the mask, as in
numpy. -/
def panEssentialPairs (m : EffectMatrix) (cancerIds : List String)
    (threshold minFraction : ℚ) : List (String × ℚ) :=
  m.genes.filterMap fun g =>
    match essentialFraction m cancerIds threshold g with
    | none => none
    | some q => if minFraction ≤ q then some (g, q) else none

/-- Descending order on the fraction component, used to model
`sort_values(ascending=False)`. -/
def descBySnd (a b : String × ℚ) : Prop := b.2 ≤ a.2

instance : DecidableRel descBySnd := fun a b => inferInstanceAs (Decidable (b.2 ≤ a.2))

instance : IsTotal (String × ℚ) descBySnd := ⟨fun a b => le_total b.2 a.2⟩

instance : IsTrans (String × ℚ) descBySnd := ⟨fun _ _ _ h1 h2 => le_trans h2 h1⟩

/-- `find_pan_essential_genes`: gene ↦ essential fraction for the genes passing
the minimum-fraction mask, sorted descending by fraction. -/
def findPanEssentialGenes (m : EffectMatrix) (cancerIds : List String)
    (threshold minFraction : ℚ) : List (String × ℚ) :=
  List.insertionSort descBySnd (panEssentialPairs m cancerIds threshold minFraction)

/-- Mean effect of gene `g` over the cell lines `ids` (pandas `mean(axis=0)`). -/
def meanEffect (m : EffectMatrix) (ids : List String) (g : String) : ℚ :=
  (ids.map fun c => m.effect c g).sum / (ids.length : ℚ)

/-- `filter_cancer_selective`: with an empty non-cancer cohort the candidate
mapping is returned unmodified (the source also prints a warning, a console
effect outside the embedding).  Otherwise candidates are restricted to genes
present in the matrix columns (the `index.intersection` step) and kept iff
their mean normal effect strictly exceeds `normalThreshold`.  The source also
returns the mean-normal-effect series, used only for the final report. -/
def filterCancerSelective (m : EffectMatrix) (panEssential : List (String × ℚ))
    (nonCancerIds : List String) (normalThreshold : ℚ) : List (String × ℚ) :=
  if nonCancerIds.length = 0 then panEssential
  else panEssential.filter fun p =>
    decide (p.1 ∈ m.genes) && decide (normalThreshold < meanEffect m nonCancerIds p.1)

/-- `remove_common_essentials` parses `"SYMBOL (ENTREZ)"` by splitting on the
first space: the bare symbol is the prefix before the first space. -/
def bareSymbol (g : String) : String := String.mk (g.toList.takeWhile fun c => c ≠ ' ')

/-- `remove_common_essentials`: drop candidates whose bare symbol is in the
common-essential reference set. -/
def removeCommonEssentials (cancerSelective : List (String × ℚ))
    (commonEssential : Finset String) : List (String × ℚ) :=
  cancerSelective.filter fun p => decide (bareSymbol p.1 ∉ commonEssential)

/-- `compute_selectivity_score`: mean normal effect minus mean cancer effect
when a non-cancer cohort exists, otherwise the negated mean cancer effect. -/
def computeSelectivityScore (m : EffectMatrix) (cancerIds nonCancerIds : List String)
    (g : String) : ℚ :=
  if 0 < nonCancerIds.length then
    meanEffect m nonCancerIds g - meanEffect m cancerIds g
  else
    -meanEffect m cancerIds g

/-- A concrete effect matrix used to instantiate the theorems: one gene,
cancer lines `L1`, `L2` with effects `-1.0` and `-0.2`, and a normal line `L3`
with effect `0`. -/
def exMatrix : EffectMatrix where
  cellLines := ["L1", "L2", "L3"]
  genes := ["GENEA (1)"]
  effect := fun c _ => if c = "L1" then -1 else if c = "L2" then -1/5 else 0

/-- A concrete metadata table: one cancer row, two non-cancer rows. -/
def exModel : List ModelRow :=
  [⟨"L1", "Lung", "Lung Adenocarcinoma"⟩,
   ⟨"L2", "Fibroblast", "Non-Cancerous"⟩,
   ⟨"L3", "Normal", "Non-Cancerous"⟩]

/-- Python's `needle in hay` substring test on the character lists of two
strings. -/
def substrOf (needle hay : String) : Bool :=
  (List.range (hay.toList.length + 1)).any fun i =>
    needle.toList.isPrefixOf (hay.toList.drop i)

/-- Python's `str.upper` (character-wise, which is exact for the ASCII gene
symbols and patterns involved). -/
def strUpper (s : String) : String := String.mk (s.toList.map Char.toUpper)

/-- Python's `str.lower` (character-wise). -/
def strLower (s : String) : String := String.mk (s.toList.map Char.toLower)

/-- `DRUGGABLE_FAMILIES` from `add_druggability.py`: druggable protein
families with their associated gene-name patterns, in source order. -/
def DRUGGABLE_FAMILIES : List (String × List String) :=
  [("kinase", ["kinase", "CDK", "MAPK", "JAK", "SRC", "ABL", "EGFR", "VEGFR", "PDGFR", "FGFR",
               "MET", "ALK", "RET", "KIT", "FLT", "BTK", "PIK3", "AURK", "PLK", "CHK", "WEE",
               "BRAF", "RAF", "MEK", "ERK", "AKT", "mTOR", "GSK3", "CK1", "CK2", "DYRK",
               "PRPF4B", "SRPK", "CLK", "PKC", "PKA", "ROCK", "PKM", "PKR"]),
   ("protease", ["protease", "peptidase", "cathepsin", "caspase", "MMP", "ADAM", "USP",
                 "SENP", "CASP", "CTSL", "CTSB", "CTSD"]),
   ("phosphatase", ["phosphatase", "PTP", "PTPN", "PTPRA", "DUSP", "CDC25", "PPP", "PPM"]),
   ("GPCR", ["GPR", "ADORA", "DRD", "HTR", "CHRM", "OPRM", "ADRB", "ADRA", "S1PR", "CXCR", "CCR"]),
   ("ion_channel", ["SCN", "CACNA", "KCNA", "KCNB", "KCNC", "KCND", "KCNH", "KCNJ", "KCNQ",
                    "HCN", "TRPV", "TRPM", "TRPC", "GABRA", "GRIN", "GRIA", "GRIK"]),
   ("nuclear_receptor", ["NR1", "NR2", "NR3", "NR4", "NR5", "ESR", "AR", "GR", "MR", "PR",
                         "PPARG", "PPARA", "RXRA", "RARA", "VDR", "THR"]),
   ("transporter", ["SLC", "ABC", "TFRC", "ATP1", "ATP2", "ATP6", "ATP7"]),
   ("epigenetic", ["HDAC", "HAT", "KMT", "KDM", "DNMT", "TET", "BRD", "SETD", "EZH", "DOT1L",
                   "PRMT", "SIRT", "EHMT", "SUV", "NSD", "SMYD", "LSD", "JMJD", "PHF", "ARID"]),
   ("enzyme_other", ["DHFR", "TYMS", "RNR", "IMPDH", "DHODH", "PARP", "IDH", "LDHA", "LDHB",
                     "HK", "PFKFB", "PGAM", "ENO", "PGK", "GAPDH", "TPI", "ALDOA", "PKM",
                     "NMT", "HMGCR", "HMGCS", "SCD", "FASN", "ACLY", "ACO", "GGPS", "FDPS"])]

/-- `KNOWN_DRUGGED_TARGETS` from `add_druggability.py`: gene symbol ↦
(drug list, clinical status). -/
def KNOWN_DRUGGED_TARGETS : List (String × List String × String) :=
  [("DHFR", ["methotrexate", "pemetrexed", "pralatrexate"], "approved"),
   ("TYMS", ["5-fluorouracil", "capecitabine"], "approved"),
   ("TFRC", ["anti-TFRC antibodies (clinical)"], "clinical"),
   ("TOP2A", ["doxorubicin", "etoposide"], "approved"),
   ("CDK1", ["dinaciclib", "flavopiridol"], "clinical"),
   ("KIF11", ["ispinesib", "filanesib"], "clinical"),
   ("PLK1", ["volasertib", "onvansertib"], "clinical"),
   ("BUB1B", ["paclitaxel (indirect)"], "approved"),
   ("MCL1", ["S63845", "AMG-176"], "clinical"),
   ("PARP1", ["olaparib", "niraparib", "rucaparib"], "approved"),
   ("HDAC1", ["vorinostat", "romidepsin"], "approved"),
   ("PRMT5", ["GSK3326595", "JNJ-64619178"], "clinical"),
   ("EZH2", ["tazemetostat"], "approved"),
   ("BRD4", ["JQ1", "OTX015", "ABBV-075"], "clinical"),
   ("NAMPT", ["FK866", "GMX1778"], "clinical"),
   ("AURKA", ["alisertib"], "clinical"),
   ("AURKB", ["barasertib"], "clinical"),
   ("WEE1", ["adavosertib"], "clinical"),
   ("CHK1", ["prexasertib", "rabusertib"], "clinical"),
   ("HMGCR", ["statins"], "approved"),
   ("GGPS1", ["bisphosphonates (indirect)"], "approved"),
   ("ACLY", ["bempedoic acid"], "approved"),
   ("SCD", ["MK-8245"], "clinical"),
   ("IDH1", ["ivosidenib"], "approved"),
   ("IDH2", ["enasidenib"], "approved"),
   ("DHODH", ["leflunomide", "brequinar"], "approved/clinical"),
   ("IMPDH1", ["mycophenolate"], "approved"),
   ("IMPDH2", ["mycophenolate"], "approved"),
   ("RRM1", ["gemcitabine"], "approved"),
   ("RRM2", ["hydroxyurea", "gemcitabine"], "approved"),
   ("PSMB5", ["bortezomib", "carfilzomib"], "approved"),
   ("USP7", ["P5091", "GNE-6640"], "preclinical"),
   ("UBA1", ["TAK-243"], "clinical"),
   ("SAE1", ["ML-792", "TAK-981"], "clinical")]

/-- `classify_druggability`: first family (in table order) with a pattern that
occurs within, or is a prefix of, the upper-cased gene symbol. -/
def classify_druggability (geneSymbol : String) : Option String :=
  let geneUpper := strUpper geneSymbol
  DRUGGABLE_FAMILIES.findSome? fun fp =>
    if fp.2.any (fun p =>
        substrOf (strUpper p) geneUpper || (strUpper p).toList.isPrefixOf geneUpper.toList)
    then some fp.1 else none

/-- `get_known_drug_info`: dictionary lookup of the upper-cased symbol. -/
def get_known_drug_info (geneSymbol : String) : Option (List String × String) :=
  (KNOWN_DRUGGED_TARGETS.find? fun e => e.1 = strUpper geneSymbol).map Prod.snd

/-- The per-gene `druggability_score` logic of `add_druggability_annotations`:
start at 0; a known drug sets 3; a family match raises to 2 when below 2; a
ChEMBL hit (passed in as data, the call itself being network I/O) raises to 1
when below 1. -/
def druggability_score (geneSymbol : String) (inChembl : Bool) : Nat :=
  let s0 := 0
  let s1 := if (get_known_drug_info geneSymbol).isSome then 3 else s0
  let s2 := if (classify_druggability geneSymbol).isSome && decide (s1 < 2) then 2 else s1
  if inChembl && decide (s2 < 1) then 1 else s2

/-- One tractability record returned by the OpenTargets endpoint:
`{label, modality, value}`. -/
structure TractItem where
  label : String
  modality : String
  value : Bool

/-- The summary dictionary built by `summarize_tractability`. -/
structure TractSummary where
  SM_clinical : Bool
  SM_structural : Bool
  AB_clinical : Bool
  AB_accessible : Bool
  PR_tractable : Bool
  OC_clinical : Bool
  SM_score : ℚ
  AB_score : ℚ
  PR_score : ℚ
  total_score : ℚ
deriving DecidableEq

/-- `clinical_labels` from `summarize_tractability`. -/
def clinical_labels : List String := ["Approved Drug", "Advanced Clinical", "Phase 1 Clinical"]

/-- `3 - clinical_labels.index(label)`: 3, 2 or 1 for the three clinical
labels. -/
def clinicalScore (label : String) : ℚ := 3 - (clinical_labels.indexOf label : ℚ)

/-- One iteration of the loop body of `summarize_tractability`.  Items with a
false `value` are skipped; the four modalities update the flags and running
per-modality scores exactly as in the source. -/
def tractStep (s : TractSummary) (item : TractItem) : TractSummary :=
  if !item.value then s
  else if item.modality = "SM" then
    if item.label ∈ clinical_labels then
      { s with SM_clinical := true, SM_score := max s.SM_score (clinicalScore item.label) }
    else if substrOf "Ligand" item.label || substrOf "Pocket" item.label then
      { s with SM_structural := true, SM_score := max s.SM_score 1 }
    else if item.label = "Druggable Family" then
      { s with SM_score := max s.SM_score (1/2) }
    else s
  else if item.modality = "AB" then
    if item.label ∈ clinical_labels then
      { s with AB_clinical := true, AB_score := max s.AB_score (clinicalScore item.label) }
    else if substrOf "loc" (strLower item.label) || substrOf "SigP" item.label
        || substrOf "TMHMM" item.label then
      { s with AB_accessible := true, AB_score := max s.AB_score 1 }
    else s
  else if item.modality = "PR" then
    if item.label ∈ clinical_labels then
      { s with PR_score := max s.PR_score (clinicalScore item.label) }
    else
      { s with PR_tractable := true, PR_score := max s.PR_score (1/2) }
  else if item.modality = "OC" then
    if item.label ∈ clinical_labels then { s with OC_clinical := true } else s
  else s

/-- The all-false/zero initial summary of `summarize_tractability`, identical
to the not-found summary built in `main`. -/
def allZeroSummary : TractSummary :=
  ⟨false, false, false, false, false, false, 0, 0, 0, 0⟩

/-- `summarize_tractability`: fold the loop body over the evidence list, then
set the total to the sum of the three per-modality scores. -/
def summarize_tractability (tractabilityList : List TractItem) : TractSummary :=
  let s := tractabilityList.foldl tractStep allZeroSummary
  { s with total_score := s.SM_score + s.AB_score + s.PR_score }

/-- An HTTP response to the gene-search call: status code and the list of hit
identifiers parsed from the payload. -/
structure SearchResponse where
  status : Nat
  hits : List String

/-- An HTTP response to the tractability call: status code and the evidence
records parsed from the payload. -/
structure TractResponse where
  status : Nat
  items : List TractItem

/-- `search_gene` decision logic: a timeout or exception (`none` response) or
any status other than 200 yields `none`; on 200 the first hit's identifier is
returned when one exists. -/
def search_gene (resp : Option SearchResponse) : Option String :=
  match resp with
  | none => none
  | some r => if r.status = 200 then r.hits.head? else none

/-- `get_tractability` decision logic: a timeout, exception or non-200 status
yields the empty evidence list; on 200 the payload's records are returned. -/
def get_tractability (resp : Option TractResponse) : List TractItem :=
  match resp with
  | none => []
  | some r => if r.status = 200 then r.items else []

/-- The per-gene body of the batch loop in `main` of
`add_opentargets_tractability.py`: resolve the identifier via the search call;
when found, summarize the tractability call's evidence; when not found, use
the explicit all-false/zero summary. -/
def processGene (searchResp : Option SearchResponse) (tractResp : Option TractResponse) :
    TractSummary :=
  match search_gene searchResp with
  | some _ => summarize_tractability (get_tractability tractResp)
  | none => allZeroSummary

/-- The whole batch: one summary row per gene, in order; no gene aborts the
loop. -/
def runBatch (resps : List (Option SearchResponse × Option TractResponse)) :
    List TractSummary :=
  resps.map fun p => processGene p.1 p.2

/-- `TractSummary` with the `OC_clinical` flag cleared, used to state that OC
evidence influences nothing but that flag. -/
def eraseOC (s : TractSummary) : TractSummary := { s with OC_clinical := false }

/-! ### Helper lemmas -/

lemma mem_panEssentialPairs {m : EffectMatrix} {cancerIds : List String} {T F : ℚ}
    {g : String} {q : ℚ} :
    (g, q) ∈ panEssentialPairs m cancerIds T F ↔
      g ∈ m.genes ∧ essentialFraction m cancerIds T g = some q ∧ F ≤ q := by
  unfold panEssentialPairs
  rw [List.mem_filterMap]
  constructor
  · rintro ⟨a, ha, hf⟩
    rcases hE : essentialFraction m cancerIds T a with _ | q0 <;> rw [hE] at hf <;>
      dsimp only at hf
    · simp at hf
    · by_cases hle : F ≤ q0
      · rw [if_pos hle] at hf
        obtain ⟨rfl, rfl⟩ : a = g ∧ q0 = q := by
          simpa [Prod.ext_iff] using hf
        exact ⟨ha, hE, hle⟩
      · rw [if_neg hle] at hf
        exact absurd hf (by simp)
  · rintro ⟨hg, hE, hle⟩
    exact ⟨g, hg, by rw [hE]; simp [hle]⟩

lemma mem_findPanEssentialGenes {m : EffectMatrix} {cancerIds : List String} {T F : ℚ}
    {g : String} {q : ℚ} :
    (g, q) ∈ findPanEssentialGenes m cancerIds T F ↔
      g ∈ m.genes ∧ essentialFraction m cancerIds T g = some q ∧ F ≤ q := by
  unfold findPanEssentialGenes
  rw [(List.perm_insertionSort descBySnd (panEssentialPairs m cancerIds T F)).mem_iff]
  exact mem_panEssentialPairs

/-! ### Claim theorems -/

/-- C1: the claim says the Essentiality Filter fails with a clear "no cancer
cell lines available" error on an empty cancer cohort.  The code has no such
guard: every per-gene fraction becomes `0/0 = NaN`, every `NaN` fails the
`>= min_fraction` mask, and the filter silently returns an empty mapping, for
any matrix and any parameters. -/
theorem essentiality_filter_empty_cohort_silent (m : EffectMatrix) (T F : ℚ) :
    findPanEssentialGenes m [] T F = [] := by
  have h : panEssentialPairs m [] T F = [] := by
    simp [panEssentialPairs, essentialFraction, List.filterMap_eq_nil_iff]
  rw [findPanEssentialGenes, h]
  rfl

/-- C4: with an empty non-cancer cohort the Selectivity Filter returns the
pan-essential mapping unmodified for every matrix, candidate mapping and
threshold; the embedded function is total, so no exception is raised (the
warning is a console print outside the embedding). -/
theorem selectivity_filter_empty_cohort_id (m : EffectMatrix)
    (panEssential : List (String × ℚ)) (N : ℚ) :
    filterCancerSelective m panEssential [] N = panEssential := by
  simp [filterCancerSelective]

/-- C7: Common-Essential Exclusion keeps exactly the candidate entries whose
bare symbol (identifier up to the first space) is outside the
common-essential set, and the output is a sublist of the input, so surviving
entries are unchanged and keep their order. -/
theorem remove_common_essentials_spec (cs : List (String × ℚ)) (common : Finset String) :
    (∀ g q, (g, q) ∈ removeCommonEssentials cs common ↔
      (g, q) ∈ cs ∧ bareSymbol g ∉ common)
    ∧ List.Sublist (removeCommonEssentials cs common) cs := by
  constructor
  · intro g q
    simp [removeCommonEssentials, List.mem_filter]
  · exact List.filter_sublist cs

/-- C2: for a non-empty cancer cohort, the Essentiality Filter output contains
`(g, q)` iff `g` is a matrix column, `q` is the count of cancer lines with
effect strictly below `T` divided by the cohort size, and `F ≤ q`; the output
is sorted descending by fraction; and on the concrete two-line cohort with
effects `-1.0` and `-0.2` at threshold `-0.5` the fraction is `0.5`. -/
theorem find_pan_essential_genes_spec (m : EffectMatrix) (cancerIds : List String)
    (T F : ℚ) (h : cancerIds ≠ []) :
    (∀ g q, (g, q) ∈ findPanEssentialGenes m cancerIds T F ↔
      g ∈ m.genes ∧
        q = ((cancerIds.countP fun c => decide (m.effect c g < T)) : ℚ) /
          (cancerIds.length : ℚ) ∧
        F ≤ q)
    ∧ List.Sorted descBySnd (findPanEssentialGenes m cancerIds T F)
    ∧ essentialFraction exMatrix ["L1", "L2"] (-1/2) "GENEA (1)" = some (1/2) := by
  have hlen : cancerIds.length ≠ 0 := by simpa [List.length_eq_zero] using h
  refine ⟨?_, ?_, ?_⟩
  · intro g q
    rw [mem_findPanEssentialGenes]
    simp [essentialFraction, hlen, eq_comm]
  · exact List.sorted_insertionSort descBySnd _
  · simp [essentialFraction, exMatrix, List.countP, List.countP.go]
    norm_num

/-- Witness for C2 at the concrete matrix: the single gene passes with
fraction exactly `1/2`. -/
theorem find_pan_essential_genes_spec_witness :
    (["L1", "L2"] : List String) ≠ [] ∧
    ("GENEA (1)", (1/2 : ℚ)) ∈ findPanEssentialGenes exMatrix ["L1", "L2"] (-1/2) (1/2) :=
  ⟨by decide,
    ((find_pan_essential_genes_spec exMatrix ["L1", "L2"] (-1/2) (1/2) (by decide)).1
      "GENEA (1)" (1/2)).mpr
      ⟨by decide, by simp [exMatrix, List.countP, List.countP.go]; norm_num, le_refl _⟩⟩

/-- C5: lowering the minimum fraction from `F` to any `F' ≤ F` never removes a
gene/fraction pair that passed at `F`. -/
theorem pan_essential_monotone_in_fraction (m : EffectMatrix) (cancerIds : List String)
    (T F F' : ℚ) (hle : F' ≤ F) (g : String) (q : ℚ)
    (hmem : (g, q) ∈ findPanEssentialGenes m cancerIds T F) :
    (g, q) ∈ findPanEssentialGenes m cancerIds T F' := by
  rw [mem_findPanEssentialGenes] at hmem ⊢
  exact ⟨hmem.1, hmem.2.1, le_trans hle hmem.2.2⟩

/-- Witness for C5: the gene passing at `F = 1/2` also passes at `F' = 0`. -/
theorem pan_essential_monotone_in_fraction_witness :
    (0 : ℚ) ≤ 1/2 ∧
    ("GENEA (1)", (1/2 : ℚ)) ∈ findPanEssentialGenes exMatrix ["L1", "L2"] (-1/2) (1/2) ∧
    ("GENEA (1)", (1/2 : ℚ)) ∈ findPanEssentialGenes exMatrix ["L1", "L2"] (-1/2) 0 := by
  have hmem : ("GENEA (1)", (1/2 : ℚ)) ∈
      findPanEssentialGenes exMatrix ["L1", "L2"] (-1/2) (1/2) :=
    mem_findPanEssentialGenes.mpr
      ⟨by decide,
       by simp [essentialFraction, exMatrix, List.countP, List.countP.go]; norm_num,
       le_refl _⟩
  exact ⟨by norm_num, hmem,
    pan_essential_monotone_in_fraction exMatrix ["L1", "L2"] (-1/2) (1/2) 0 (by norm_num)
      "GENEA (1)" (1/2) hmem⟩

/-- C3: with a non-empty non-cancer cohort, a candidate (whose gene is a
matrix column, as guaranteed by the pipeline) is kept iff its mean normal
effect strictly exceeds `N`; the selectivity score is mean normal minus mean
cancer effect; with an empty non-cancer cohort it is the negated mean cancer
effect. -/
theorem selectivity_filter_spec (m : EffectMatrix) (panEssential : List (String × ℚ))
    (cancerIds nonCancerIds : List String) (N : ℚ)
    (hne : nonCancerIds ≠ [])
    (hcols : ∀ p ∈ panEssential, p.1 ∈ m.genes) :
    (∀ g q, (g, q) ∈ filterCancerSelective m panEssential nonCancerIds N ↔
      (g, q) ∈ panEssential ∧ N < meanEffect m nonCancerIds g)
    ∧ (∀ g, computeSelectivityScore m cancerIds nonCancerIds g =
        meanEffect m nonCancerIds g - meanEffect m cancerIds g)
    ∧ (∀ g, computeSelectivityScore m cancerIds [] g = -meanEffect m cancerIds g) := by
  have hlen : nonCancerIds.length ≠ 0 := by simpa [List.length_eq_zero] using hne
  refine ⟨?_, ?_, ?_⟩
  · intro g q
    rw [filterCancerSelective, if_neg hlen]
    simp only [List.mem_filter, Bool.and_eq_true, decide_eq_true_eq]
    constructor
    · rintro ⟨hmem, _, hgt⟩
      exact ⟨hmem, hgt⟩
    · rintro ⟨hmem, hgt⟩
      exact ⟨hmem, hcols _ hmem, hgt⟩
  · intro g
    rw [computeSelectivityScore, if_pos (Nat.pos_of_ne_zero hlen)]
  · intro g
    simp [computeSelectivityScore]

/-- Witness for C3: with normal line `L3` at effect `0 > -3/10`, the candidate
survives the Selectivity Filter. -/
theorem selectivity_filter_spec_witness :
    (["L3"] : List String) ≠ [] ∧
    (∀ p ∈ [(("GENEA (1)" : String), (1/2 : ℚ))], p.1 ∈ exMatrix.genes) ∧
    ("GENEA (1)", (1/2 : ℚ)) ∈
      filterCancerSelective exMatrix [("GENEA (1)", 1/2)] ["L3"] (-3/10) :=
  ⟨by decide, by decide,
    ((selectivity_filter_spec exMatrix [("GENEA (1)", 1/2)] ["L1", "L2"] ["L3"] (-3/10)
      (by decide) (by decide)).1 "GENEA (1)" (1/2)).mpr
      ⟨by simp, by simp [meanEffect, exMatrix]; norm_num⟩⟩

/-- C6: when the metadata table has one row per cell-line identifier, the
cancer and non-cancer identifier sets returned by the Cohort Classifier are
disjoint, their union lies inside the cell lines of the effect matrix, and an
identifier absent from the matrix belongs to neither set. -/
theorem classify_cell_lines_disjoint_subset (model : List ModelRow) (m : EffectMatrix)
    (hnodup : (model.map ModelRow.modelID).Nodup) :
    Disjoint (classifyCellLines model m).1 (classifyCellLines model m).2
    ∧ (classifyCellLines model m).1 ∪ (classifyCellLines model m).2 ⊆ m.cellLines.toFinset
    ∧ ∀ x, x ∉ m.cellLines →
        x ∉ (classifyCellLines model m).1 ∧ x ∉ (classifyCellLines model m).2 := by
  have hsub1 : (classifyCellLines model m).1 ⊆ m.cellLines.toFinset := by
    simp only [classifyCellLines]
    exact Finset.inter_subset_right
  have hsub2 : (classifyCellLines model m).2 ⊆ m.cellLines.toFinset := by
    simp only [classifyCellLines]
    exact Finset.inter_subset_right
  refine ⟨?_, Finset.union_subset hsub1 hsub2, ?_⟩
  · rw [Finset.disjoint_left]
    intro x hx1 hx2
    simp only [classifyCellLines, Finset.mem_inter, List.mem_toFinset, List.mem_map,
      List.mem_filter] at hx1 hx2
    obtain ⟨⟨r1, ⟨hr1m, hr1mask⟩, hr1id⟩, _⟩ := hx1
    obtain ⟨⟨r2, ⟨hr2m, hr2mask⟩, hr2id⟩, _⟩ := hx2
    have hr12 : r1 = r2 :=
      List.inj_on_of_nodup_map hnodup hr1m hr2m (hr1id.trans hr2id.symm)
    subst hr12
    simp [hr2mask] at hr1mask
  · intro x hx
    exact ⟨fun hmem => hx (List.mem_toFinset.mp (hsub1 hmem)),
           fun hmem => hx (List.mem_toFinset.mp (hsub2 hmem))⟩

/-- Witness for C6 on the concrete metadata table and matrix. -/
theorem classify_cell_lines_disjoint_subset_witness :
    (exModel.map ModelRow.modelID).Nodup ∧
    (Disjoint (classifyCellLines exModel exMatrix).1 (classifyCellLines exModel exMatrix).2
     ∧ (classifyCellLines exModel exMatrix).1 ∪ (classifyCellLines exModel exMatrix).2 ⊆
         exMatrix.cellLines.toFinset
     ∧ ∀ x, x ∉ exMatrix.cellLines →
         x ∉ (classifyCellLines exModel exMatrix).1 ∧
         x ∉ (classifyCellLines exModel exMatrix).2) :=
  ⟨by decide, classify_cell_lines_disjoint_subset exModel exMatrix (by decide)⟩

/-- C8: any gene whose upper-cased symbol is a key of the static known-drug
table receives druggability score 3, whatever the family classification or
ChEMBL outcome for that gene. -/
theorem known_drug_score_three (g : String) (inChembl : Bool)
    (h : strUpper g ∈ KNOWN_DRUGGED_TARGETS.map Prod.fst) :
    druggability_score g inChembl = 3 := by
  have hsome : (get_known_drug_info g).isSome = true := by
    rw [get_known_drug_info, Option.isSome_map', List.find?_isSome]
    obtain ⟨e, he, heq⟩ := List.mem_map.mp h
    exact ⟨e, he, by simp [heq]⟩
  simp [druggability_score, hsome]

/-- Witness for C8: `DHFR` is in the known-drug table and scores 3. -/
theorem known_drug_score_three_witness :
    strUpper "DHFR" ∈ KNOWN_DRUGGED_TARGETS.map Prod.fst ∧
    druggability_score "DHFR" false = 3 :=
  ⟨by decide, known_drug_score_three "DHFR" false (by decide)⟩

lemma summarize_nil : summarize_tractability [] = allZeroSummary := by
  simp [summarize_tractability, allZeroSummary]

/-- C9: a failing search call (any non-200 status, or `none` for a
timeout/exception) yields the all-false/zero summary for that gene, as does a
failing tractability call after any search outcome — whether a non-200 status
(e.g. HTTP 500) or a timeout/exception; and the batch produces one summary per
gene regardless, so no failure aborts it. -/
theorem network_failure_all_zero :
    (∀ (s : Nat) (hits : List String) (tr : Option TractResponse), s ≠ 200 →
      processGene (some ⟨s, hits⟩) tr = allZeroSummary)
    ∧ (∀ tr : Option TractResponse, processGene none tr = allZeroSummary)
    ∧ (∀ (sr : Option SearchResponse) (t : Nat) (items : List TractItem), t ≠ 200 →
      processGene sr (some ⟨t, items⟩) = allZeroSummary)
    ∧ (∀ sr : Option SearchResponse, processGene sr none = allZeroSummary)
    ∧ (∀ resps, (runBatch resps).length = resps.length) := by
  refine ⟨?_, ?_, ?_, ?_, ?_⟩
  · intro s hits tr hs
    simp [processGene, search_gene, hs]
  · intro tr
    rfl
  · intro sr t items ht
    rcases hsg : search_gene sr with _ | eid
    · simp [processGene, hsg]
    · simp [processGene, hsg, get_tractability, ht, summarize_nil]
  · intro sr
    rcases hsg : search_gene sr with _ | eid
    · simp [processGene, hsg]
    · simp [processGene, hsg, get_tractability, summarize_nil]
  · intro resps
    simp [runBatch]

/-- Witness for C9: an HTTP 500 search response gives the all-zero summary,
and so does an HTTP 500 tractability response after a successful search. -/
theorem network_failure_all_zero_witness :
    (500 : Nat) ≠ 200 ∧
    processGene (some ⟨500, ["ENSG00000146648"]⟩) (some ⟨200, []⟩) = allZeroSummary ∧
    processGene (some ⟨200, ["ENSG00000146648"]⟩) (some ⟨500, []⟩) = allZeroSummary :=
  ⟨by decide,
    network_failure_all_zero.1 500 ["ENSG00000146648"] (some ⟨200, []⟩) (by decide),
    network_failure_all_zero.2.2.1 (some ⟨200, ["ENSG00000146648"]⟩) 500 [] (by decide)⟩

lemma eraseOC_tractStep_congr {s1 s2 : TractSummary} (i : TractItem)
    (h : eraseOC s1 = eraseOC s2) :
    eraseOC (tractStep s1 i) = eraseOC (tractStep s2 i) := by
  cases s1
  cases s2
  simp only [eraseOC, TractSummary.mk.injEq] at h
  obtain ⟨h1, h2, h3, h4, h5, -, h6, h7, h8, h9⟩ := h
  subst h1 h2 h3 h4 h5 h6 h7 h8 h9
  unfold tractStep
  split_ifs <;> simp [eraseOC]

lemma eraseOC_tractStep_oc (s : TractSummary) (i : TractItem) (h : i.modality = "OC") :
    eraseOC (tractStep s i) = eraseOC s := by
  have hsm : ¬i.modality = "SM" := by rw [h]; decide
  have hab : ¬i.modality = "AB" := by rw [h]; decide
  have hpr : ¬i.modality = "PR" := by rw [h]; decide
  unfold tractStep
  by_cases hv : (!i.value) = true
  · rw [if_pos hv]
  · rw [if_neg hv, if_neg hsm, if_neg hab, if_neg hpr, if_pos h]
    cases s
    split_ifs <;> simp [eraseOC]

lemma eraseOC_foldl_filter (l : List TractItem) :
    ∀ s1 s2 : TractSummary, eraseOC s1 = eraseOC s2 →
      eraseOC ((l.filter fun i => decide (i.modality ≠ "OC")).foldl tractStep s1)
        = eraseOC (l.foldl tractStep s2) := by
  induction l with
  | nil =>
    intro s1 s2 h
    simpa using h
  | cons i l ih =>
    intro s1 s2 h
    by_cases hoc : i.modality = "OC"
    · rw [List.filter_cons_of_neg (by simp [hoc]), List.foldl_cons]
      exact ih s1 (tractStep s2 i) (h.trans (eraseOC_tractStep_oc s2 i hoc).symm)
    · rw [List.filter_cons_of_pos (by simp [hoc]), List.foldl_cons, List.foldl_cons]
      exact ih _ _ (eraseOC_tractStep_congr i h)

lemma eraseOC_withTotal {s1 s2 : TractSummary} (h : eraseOC s1 = eraseOC s2) :
    eraseOC { s1 with total_score := s1.SM_score + s1.AB_score + s1.PR_score }
      = eraseOC { s2 with total_score := s2.SM_score + s2.AB_score + s2.PR_score } := by
  cases s1
  cases s2
  simp only [eraseOC, TractSummary.mk.injEq] at h ⊢
  obtain ⟨h1, h2, h3, h4, h5, -, h6, h7, h8, h9⟩ := h
  subst h1 h2 h3 h4 h5 h6 h7 h8 h9
  simp

/-- C10: the total tractability score is always exactly the sum of the
small-molecule, antibody and PROTAC scores, and removing all OC-modality
evidence changes nothing in the summary except possibly the `OC_clinical`
flag — OC evidence never affects any numeric score or other flag. -/
theorem oc_modality_only_flag (l : List TractItem) :
    (summarize_tractability l).total_score =
      (summarize_tractability l).SM_score + (summarize_tractability l).AB_score +
        (summarize_tractability l).PR_score
    ∧ eraseOC (summarize_tractability (l.filter fun i => decide (i.modality ≠ "OC")))
        = eraseOC (summarize_tractability l) := by
  constructor
  · rfl
  · exact eraseOC_withTotal (eraseOC_foldl_filter l allZeroSummary allZeroSummary rfl)
